import Mathlib

/-
  Verification development for the `testsprite_tests` HTTP smoke-test corpus
  (files src/testsprite_tests/TC001 .. TC010).

  Each Python test script issues a fixed sequence of HTTP requests and judges
  each response with `assert` statements.  We embed the corpus shallowly:

  * `JVal`   models the parsed JSON value returned by `response.json()`.
  * `Resp`   models a received HTTP response: status code, parsed body
             (`none` models a JSON parse failure), and wall-clock elapsed
             time of the call (an exact rational; float rounding of
             `time.time()` is abstracted).
  * `Outcome` models the result of issuing one request: either a transport
             failure (`requests.RequestException`, i.e. connection error or
             timeout) carrying the exception text, or a response.
  * Each test case becomes a `TestCase`: the list of requests it issues in
    order, each with the boolean judgement its assert block performs on the
    response, plus a final check over all collected responses (used only by
    the billing test, which asserts an average-latency bound after its loop).
  * `runSteps` / `runCase` give the sequential execution semantics: requests
    are issued one at a time; a transport failure or a failed judgement stops
    the test immediately with a failure; there is no retry logic anywhere.

  Python-semantics notes, used when translating the assert blocks:
  * `k in x` on a dict is key membership, on a list element membership, on a
    string substring search; on other values it raises `TypeError`, which
    makes the test fail, so it is modelled as `false` (rejection).
  * `d.get(k)` / `d[k]` on a non-dict raise, which also makes the test fail;
    `getKey` returns `none` in every such case, and every judge treats
    `none` as rejection, so acceptance is preserved exactly.
  * `a or b` returns `a` if `a` is truthy, else `b` (`pyOr`).
  * `str(x)` of a parsed-JSON value is modelled by `pyStr` (Python renders
    containers with `repr`; quote escaping inside strings is omitted since
    no judged value requires it).
  * Diagnostic texts of failed asserts are abstracted to a fixed string; the
    transport-failure message is modelled precisely (each call site formats
    the caught exception into its message, or lets it propagate raw, so the
    message always carries the underlying error text).
-/

inductive JVal where
  | jnull : JVal
  | jbool : Bool → JVal
  | jnum : Int → JVal
  | jstr : String → JVal
  | jarr : List JVal → JVal
  | jobj : List (String × JVal) → JVal

/-- Substring test, modelling the Python expression `needle in hay` for
strings.  An empty needle is a substring of everything, as in Python. -/
def isSubstr (needle hay : String) : Bool :=
  go needle.toList hay.toList
where
  go : List Char → List Char → Bool
    | n, [] => n.isEmpty
    | n, h :: t => List.isPrefixOf n (h :: t) || go n t

/-- First binding of a key in a field list (Python dict keys are unique, so
first-match lookup is exact). -/
def lookupField : List (String × JVal) → String → Option JVal
  | [], _ => none
  | (k, v) :: rest, key => if k = key then some v else lookupField rest key

/-- Key present in a field list: models `k in d` for a dict `d`. -/
def hasKeyF (fs : List (String × JVal)) (k : String) : Bool :=
  (lookupField fs k).isSome

/-- Models `d.get(k)` and `d[k]` on a parsed JSON value.  On a non-object
Python raises, and on a missing key `d[k]` raises while `d.get(k)` gives
`None`; every use site rejects the check in all of those cases, so `none`
uniformly models them. -/
def getKey : JVal → String → Option JVal
  | JVal.jobj fs, k => lookupField fs k
  | _, _ => none

/-- Models Python membership `k in x` for a string `k` against a parsed JSON
value `x`: key of an object, element of an array, substring of a string.
On numbers, booleans and null Python raises `TypeError`, which fails the
test, so those cases are `false`. -/
def pyContains (k : String) : JVal → Bool
  | JVal.jstr s => isSubstr k s
  | JVal.jarr xs => xs.any fun x =>
      match x with
      | JVal.jstr s => s == k
      | _ => false
  | JVal.jobj fs => hasKeyF fs k
  | _ => false

/-- Python truthiness of a parsed JSON value. -/
def pyTruthy : JVal → Bool
  | JVal.jnull => false
  | JVal.jbool b => b
  | JVal.jnum n => n != 0
  | JVal.jstr s => s != ""
  | JVal.jarr xs => !xs.isEmpty
  | JVal.jobj fs => !fs.isEmpty

/-- Models the Python expression `a or b` over optional JSON values, where
`none` stands for Python `None`: the left operand is kept when truthy,
otherwise the right operand is returned as-is. -/
def pyOr (a b : Option JVal) : Option JVal :=
  match a with
  | some v => if pyTruthy v then some v else b
  | none => b

/-- The ASCII single-quote character used by the Python `repr` of strings. -/
def pyQuote : String := String.singleton (Char.ofNat 39)

mutual

/-- Python `repr` of a parsed JSON value (quote escaping omitted). -/
def pyRepr : JVal → String
  | JVal.jnull => "None"
  | JVal.jbool true => "True"
  | JVal.jbool false => "False"
  | JVal.jnum n => toString n
  | JVal.jstr s => pyQuote ++ s ++ pyQuote
  | JVal.jarr xs => "[" ++ pyReprList xs ++ "]"
  | JVal.jobj fs => "\x7b" ++ pyReprFields fs ++ "\x7d"

def pyReprList : List JVal → String
  | [] => ""
  | [x] => pyRepr x
  | x :: y :: rest => pyRepr x ++ ", " ++ pyReprList (y :: rest)

def pyReprFields : List (String × JVal) → String
  | [] => ""
  | [(k, v)] => pyQuote ++ k ++ pyQuote ++ ": " ++ pyRepr v
  | (k, v) :: p :: rest => pyQuote ++ k ++ pyQuote ++ ": " ++ pyRepr v ++ ", " ++ pyReprFields (p :: rest)

end

/-- Python `str` of a parsed JSON value: a string renders as itself, every
other value as its `repr`. -/
def pyStr : JVal → String
  | JVal.jstr s => s
  | v => pyRepr v

/-- Models the Python method `.lower()`, character by character.  (Python
lowercases Unicode; `Char.toLower` lowercases ASCII, which is exact for
every string judged in this corpus, and in particular never produces an
uppercase character.) -/
def lowerStr (s : String) : String := String.mk (s.toList.map Char.toLower)

structure Resp where
  status : Nat
  body : Option JVal
  elapsed : Rat

inductive Outcome where
  | transport : String → Outcome
  | response : Resp → Outcome

structure ReqDesc where
  method : String
  path : String
  args : List (String × String)
  timeout : Nat
deriving DecidableEq

inductive TestResult where
  | pass : TestResult
  | fail : String → TestResult
deriving DecidableEq

/-- One request of a test case: the request it issues, the text that the
test script prepends to a caught transport exception (empty when the
exception propagates raw), and the judgement its assert block performs on
the received response. -/
structure Step where
  req : ReqDesc
  failNote : String
  judge : Resp → Bool

structure TestCase where
  steps : List Step
  finalCheck : List Resp → Bool

/-- Sequential blocking execution of a list of steps.  `env i` is the
outcome of the i-th HTTP request actually issued.  Returns the next unused
request index (so the first component minus the start index is the number
of requests issued), the responses received so far, and the result.  A
transport failure or a failed judgement stops the run immediately. -/
def runSteps (env : Nat → Outcome) : List Step → Nat → List Resp → Nat × List Resp × TestResult
  | [], n, acc => (n, acc, TestResult.pass)
  | s :: rest, n, acc =>
    match env n with
    | Outcome.transport e => (n + 1, acc, TestResult.fail (s.failNote ++ e))
    | Outcome.response r =>
      if s.judge r then runSteps env rest (n + 1) (acc ++ [r])
      else (n + 1, acc ++ [r], TestResult.fail "assertion failed")

def runTrace (tc : TestCase) (env : Nat → Outcome) : Nat × List Resp × TestResult :=
  runSteps env tc.steps 0 []

/-- Number of HTTP requests issued during a run. -/
def issuedCount (tc : TestCase) (env : Nat → Outcome) : Nat :=
  (runTrace tc env).1

/-- The requests issued during a run, in order: the run works through the
step list sequentially, so they are the requests of the first
`issuedCount` steps. -/
def issuedReqs (tc : TestCase) (env : Nat → Outcome) : List ReqDesc :=
  (tc.steps.take (issuedCount tc env)).map Step.req

def runCase (tc : TestCase) (env : Nat → Outcome) : TestResult :=
  match runTrace tc env with
  | (_, rs, TestResult.pass) =>
      if tc.finalCheck rs then TestResult.pass else TestResult.fail "assertion failed"
  | (_, _, TestResult.fail m) => TestResult.fail m

/-- TC001, valid-credentials block: status must be 200 and the body must
contain `token` or `accessToken`. -/
def loginValidCheck (r : Resp) : Bool :=
  (r.status == 200) &&
  (match r.body with
   | some j => pyContains "token" j || pyContains "accessToken" j
   | none => false)

/-- TC001, invalid-credentials block: status in (400, 401) and the body
must contain `error` or `message`. -/
def loginInvalidCheck (r : Resp) : Bool :=
  (r.status == 400 || r.status == 401) &&
  (match r.body with
   | some j => pyContains "error" j || pyContains "message" j
   | none => false)

/-- TC002, valid registration: status 201 or 200, `"email" in json_data`
and `json_data["email"] == unique_email` (indexing a non-dict raises, so
acceptance forces an object body). -/
def registerValidCheck (uniqueEmail : String) (r : Resp) : Bool :=
  (r.status == 201 || r.status == 200) &&
  (match r.body with
   | some j =>
       pyContains "email" j &&
       (match getKey j "email" with
        | some (JVal.jstr s) => s == uniqueEmail
        | _ => false)
   | none => false)

/-- TC002, missing-field loop body: status 400 or 422, then
`any(missing_field in str(err_json.get("message", "")).lower() for key in err_json)`,
which requires a non-empty dict body (`.get` on a non-dict raises) whose
stringified `message`, lowercased, has the field name as a substring. -/
def registerMissingCheck (field : String) (r : Resp) : Bool :=
  (r.status == 400 || r.status == 422) &&
  (match r.body with
   | some (JVal.jobj fs) =>
       (!fs.isEmpty) &&
       isSubstr field (lowerStr (pyStr ((lookupField fs "message").getD (JVal.jstr ""))))
   | _ => false)

/-- TC002, invalid-email and short-password blocks: status 400 or 422 and
`field in str(err_json.get("message", "")).lower()` (a dict body is forced
by `.get`). -/
def registerBadValueCheck (field : String) (r : Resp) : Bool :=
  (r.status == 400 || r.status == 422) &&
  (match r.body with
   | some (JVal.jobj fs) =>
       isSubstr field (lowerStr (pyStr ((lookupField fs "message").getD (JVal.jstr ""))))
   | _ => false)

/-- TC003: `data.get("utmLink") or data.get("shortUrl") or data.get("url")`. -/
def utmLinkOf (j : JVal) : Option JVal :=
  pyOr (getKey j "utmLink") (pyOr (getKey j "shortUrl") (getKey j "url"))

/-- TC003, minimal creation: status 201 or 200, one of the three link keys
present, and the original URL contained in the extracted link value. -/
def utmMinimalCheck (r : Resp) : Bool :=
  (r.status == 201 || r.status == 200) &&
  (match r.body with
   | some j =>
       (pyContains "utmLink" j || pyContains "shortUrl" j || pyContains "url" j) &&
       (match utmLinkOf j with
        | some v => pyContains "https://www.example.com" v
        | none => false)
   | none => false)

/-- The five `utm_<field>=<value>` substrings checked by TC003. -/
def utmParamsFull : List String :=
  ["utm_source=newsletter", "utm_medium=email", "utm_campaign=launch",
   "utm_term=testterm", "utm_content=contentA"]

/-- TC003, full creation: status 201 or 200, extracted link not `None`
(and `.lower()` forces it to be a string), and each utm parameter a
substring of the lowercased link. -/
def utmFullCheck (r : Resp) : Bool :=
  (r.status == 201 || r.status == 200) &&
  (match r.body with
   | some j =>
       (match utmLinkOf j with
        | some (JVal.jstr s) => utmParamsFull.all fun p => isSubstr p (lowerStr s)
        | some _ => false
        | none => false)
   | none => false)

def utmErrorKeys : List String := ["error", "message", "detail", "errors"]

/-- TC003, invalid-URL and missing-URL blocks: status at least 400 and at
least one of the error keys contained in the body. -/
def utmErrorCheck (r : Resp) : Bool :=
  decide (400 <= r.status) &&
  (match r.body with
   | some j => utmErrorKeys.any fun k => pyContains k j
   | none => false)

/-- TC004, valid redirect_uri: status 200 or 201, an object body, and
`auth_url` or `url` present or any non-empty (truthy) key at all. -/
def adsAuthValidCheck (r : Resp) : Bool :=
  (r.status == 200 || r.status == 201) &&
  (match r.body with
   | some (JVal.jobj fs) =>
       hasKeyF fs "auth_url" || hasKeyF fs "url" || fs.any (fun p => p.1 != "")
   | _ => false)

/-- TC004, missing and invalid redirect_uri blocks: status 400 or 422 and
`error` or `message` contained in the body. -/
def adsAuthErrorCheck (r : Resp) : Bool :=
  (r.status == 400 || r.status == 422) &&
  (match r.body with
   | some j => pyContains "error" j || pyContains "message" j
   | none => false)

/-- TC005, valid customer_id: status 200, an object body with a
`campaigns` key whose value is a list. -/
def campaignsValidCheck (r : Resp) : Bool :=
  (r.status == 200) &&
  (match r.body with
   | some (JVal.jobj fs) =>
       hasKeyF fs "campaigns" &&
       (match lookupField fs "campaigns" with
        | some (JVal.jarr _) => true
        | _ => false)
   | _ => false)

/-- TC005, missing customer_id: status 400 or 422 and `error` or `message`
contained in the body. -/
def campaignsMissingCheck (r : Resp) : Bool :=
  (r.status == 400 || r.status == 422) &&
  (match r.body with
   | some j => pyContains "error" j || pyContains "message" j
   | none => false)

/-- TC005, invalid customer_id: status 400 or 404 and `error` or `message`
contained in the body. -/
def campaignsInvalidCheck (r : Resp) : Bool :=
  (r.status == 400 || r.status == 404) &&
  (match r.body with
   | some j => pyContains "error" j || pyContains "message" j
   | none => false)

/-- TC006, `get_auth_token`: `raise_for_status` rejects any status of 400
or above, then `data.get("accessToken") or data.get("token")` must not be
`None`. -/
def dashboardLoginCheck (r : Resp) : Bool :=
  decide (r.status < 400) &&
  (match r.body with
   | some j => (pyOr (getKey j "accessToken") (getKey j "token")).isSome
   | none => false)

/-- TC006, valid date range: `raise_for_status`, an object body, and
`len(data) > 0`. -/
def dashboardValidCheck (r : Resp) : Bool :=
  decide (r.status < 400) &&
  (match r.body with
   | some (JVal.jobj fs) => !fs.isEmpty
   | _ => false)

/-- TC006, missing dates: a 200 must have an object body, anything else
must be 400 or 422. -/
def dashboardMissingDatesCheck (r : Resp) : Bool :=
  if r.status == 200 then
    (match r.body with
     | some (JVal.jobj _) => true
     | _ => false)
  else r.status == 400 || r.status == 422

/-- TC006, invalid startDate / endDate blocks: status 400 or 422. -/
def dashboardBadDateCheck (r : Resp) : Bool :=
  r.status == 400 || r.status == 422

/-- TC007 grouping: status 200 or 401; a 200 needs an object body with a
`success` field and a `data` field holding a list; a 401 needs `error`
contained in the body with `data["error"]["code"] == "INVALID_TOKEN"`. -/
def historyGroupingCheck (r : Resp) : Bool :=
  (r.status == 200 || r.status == 401) &&
  (if r.status == 200 then
     match r.body with
     | some (JVal.jobj fs) =>
         hasKeyF fs "success" && hasKeyF fs "data" &&
         (match lookupField fs "data" with
          | some (JVal.jarr _) => true
          | _ => false)
     | _ => false
   else if r.status == 401 then
     match r.body with
     | some j =>
         pyContains "error" j &&
         (match getKey j "error" with
          | some e =>
              (match getKey e "code" with
               | some (JVal.jstr s) => s == "INVALID_TOKEN"
               | _ => false)
          | none => false)
     | none => false
   else true)

/-- TC007 retrieval, valid groupBy loop body: status exactly 200 and a
body that is a dict or a list. -/
def historyValidGroupByCheck (r : Resp) : Bool :=
  (r.status == 200) &&
  (match r.body with
   | some (JVal.jobj _) => true
   | some (JVal.jarr _) => true
   | _ => false)

/-- TC007 retrieval, invalid groupBy block: status 400 or 422 and `error`
or `message` contained in the body. -/
def historyInvalidGroupByCheck (r : Resp) : Bool :=
  (r.status == 400 || r.status == 422) &&
  (match r.body with
   | some j => pyContains "error" j || pyContains "message" j
   | none => false)

/-- TC008, valid date range: `raise_for_status`, an object body, and
`report` or `analysis` present. -/
def roasValidCheck (r : Resp) : Bool :=
  decide (r.status < 400) &&
  (match r.body with
   | some (JVal.jobj fs) => hasKeyF fs "report" || hasKeyF fs "analysis"
   | _ => false)

/-- TC008, the four missing/invalid date blocks: status 400 or 422. -/
def roasDateErrorCheck (r : Resp) : Bool :=
  r.status == 400 || r.status == 422

/-- TC009, initial subscription read: status 200 and `plan` and `status`
contained in the body. -/
def subscriptionDetailCheck (r : Resp) : Bool :=
  (r.status == 200) &&
  (match r.body with
   | some j => pyContains "plan" j && pyContains "status" j
   | none => false)

/-- TC009, performance loop body: status 200. -/
def subscriptionLoopCheck (r : Resp) : Bool :=
  r.status == 200

/-- TC009, after the loop: the average of the five measured loop latencies
(`sum(response_times) / len(response_times)`) must be under 2 seconds.
The first collected response is the initial untimed read, hence `drop 1`. -/
def avgLatencyCheck (rs : List Resp) : Bool :=
  let ts := (rs.drop 1).map Resp.elapsed
  decide (ts.foldl (fun a b => a + b) 0 / (ts.length : Rat) < 2)

/-- TC010, valid message: status 200 and
`("success" in resp_json and resp_json["success"] is True) or ("messageId" in resp_json)`.
For a string or list body, a successful `"success" in resp_json` makes the
subsequent indexing raise `TypeError`, so such a body is accepted only via
the `messageId` membership. -/
def whatsappValidCheck (r : Resp) : Bool :=
  (r.status == 200) &&
  (match r.body with
   | some (JVal.jobj fs) =>
       (hasKeyF fs "success" &&
        (match lookupField fs "success" with
         | some (JVal.jbool true) => true
         | _ => false)) ||
       hasKeyF fs "messageId"
   | some (JVal.jstr s) =>
       if isSubstr "success" s then false else isSubstr "messageId" s
   | some (JVal.jarr xs) =>
       if pyContains "success" (JVal.jarr xs) then false
       else pyContains "messageId" (JVal.jarr xs)
   | _ => false)

/-- TC010, the four missing/empty field blocks: status 400 or 422. -/
def whatsappFieldErrorCheck (r : Resp) : Bool :=
  r.status == 400 || r.status == 422

/-- TC001_user_login_functionality.py. -/
def test_user_login_functionality : TestCase :=
  { steps :=
      [ { req := { method := "POST", path := "/api/v1/auth/login",
                   args := [("email", "validuser@example.com"), ("password", "ValidPassword123")],
                   timeout := 30 },
          failNote := "Request exception on valid login test: ",
          judge := loginValidCheck },
        { req := { method := "POST", path := "/api/v1/auth/login",
                   args := [("email", "invaliduser@example.com"), ("password", "WrongPassword")],
                   timeout := 30 },
          failNote := "Request exception on invalid login test: ",
          judge := loginInvalidCheck } ],
    finalCheck := fun _ => true }

/-- TC002_user_registration_process.py; `uniqueEmail` is the runtime value
of `f"user_{uuid.uuid4().hex}@example.com"`.  No request is wrapped in a
try block, so a transport exception propagates raw (`failNote` empty). -/
def test_user_registration_process (uniqueEmail : String) : TestCase :=
  { steps :=
      [ { req := { method := "POST", path := "/api/v1/auth/register",
                   args := [("name", "Test User"), ("email", uniqueEmail),
                            ("password", "StrongP@ssw0rd!"), ("organizationName", "Test Organization")],
                   timeout := 30 },
          failNote := "",
          judge := registerValidCheck uniqueEmail },
        { req := { method := "POST", path := "/api/v1/auth/register",
                   args := [("email", uniqueEmail), ("password", "StrongP@ssw0rd!"),
                            ("organizationName", "Test Organization")],
                   timeout := 30 },
          failNote := "",
          judge := registerMissingCheck "name" },
        { req := { method := "POST", path := "/api/v1/auth/register",
                   args := [("name", "Test User"), ("password", "StrongP@ssw0rd!"),
                            ("organizationName", "Test Organization")],
                   timeout := 30 },
          failNote := "",
          judge := registerMissingCheck "email" },
        { req := { method := "POST", path := "/api/v1/auth/register",
                   args := [("name", "Test User"), ("email", uniqueEmail),
                            ("organizationName", "Test Organization")],
                   timeout := 30 },
          failNote := "",
          judge := registerMissingCheck "password" },
        { req := { method := "POST", path := "/api/v1/auth/register",
                   args := [("name", "Test User"), ("email", uniqueEmail),
                            ("password", "StrongP@ssw0rd!")],
                   timeout := 30 },
          failNote := "",
          judge := registerMissingCheck "organizationName" },
        { req := { method := "POST", path := "/api/v1/auth/register",
                   args := [("name", "Test User"), ("email", "invalid-email-format"),
                            ("password", "StrongP@ssw0rd!"), ("organizationName", "Test Organization")],
                   timeout := 30 },
          failNote := "",
          judge := registerBadValueCheck "email" },
        { req := { method := "POST", path := "/api/v1/auth/register",
                   args := [("name", "Test User"), ("email", uniqueEmail),
                            ("password", "123"), ("organizationName", "Test Organization")],
                   timeout := 30 },
          failNote := "",
          judge := registerBadValueCheck "password" } ],
    finalCheck := fun _ => true }

/-- TC003_utm_link_creation_and_validation.py (no try blocks). -/
def test_utm_link_creation_and_validation : TestCase :=
  { steps :=
      [ { req := { method := "POST", path := "/api/v1/utm/create",
                   args := [("originalUrl", "https://www.example.com")],
                   timeout := 30 },
          failNote := "",
          judge := utmMinimalCheck },
        { req := { method := "POST", path := "/api/v1/utm/create",
                   args := [("originalUrl", "https://www.example.com/page"),
                            ("utmSource", "newsletter"), ("utmMedium", "email"),
                            ("utmCampaign", "launch"), ("utmTerm", "testterm"),
                            ("utmContent", "contentA")],
                   timeout := 30 },
          failNote := "",
          judge := utmFullCheck },
        { req := { method := "POST", path := "/api/v1/utm/create",
                   args := [("originalUrl", "htp://bad-url")],
                   timeout := 30 },
          failNote := "",
          judge := utmErrorCheck },
        { req := { method := "POST", path := "/api/v1/utm/create",
                   args := [("utmSource", "newsletter")],
                   timeout := 30 },
          failNote := "",
          judge := utmErrorCheck } ],
    finalCheck := fun _ => true }

/-- TC004_google_ads_oauth_flow_initiation.py. -/
def test_google_ads_oauth_flow_initiation : TestCase :=
  { steps :=
      [ { req := { method := "POST", path := "/api/v1/google-ads/auth",
                   args := [("redirect_uri", "https://example.com/oauth/callback")],
                   timeout := 30 },
          failNote := "Request failed with exception: ",
          judge := adsAuthValidCheck },
        { req := { method := "POST", path := "/api/v1/google-ads/auth",
                   args := [],
                   timeout := 30 },
          failNote := "Request failed with exception on missing param test: ",
          judge := adsAuthErrorCheck },
        { req := { method := "POST", path := "/api/v1/google-ads/auth",
                   args := [("redirect_uri", "not-a-valid-url")],
                   timeout := 30 },
          failNote := "Request failed with exception on invalid param test: ",
          judge := adsAuthErrorCheck } ],
    finalCheck := fun _ => true }

/-- TC005_fetch_google_ads_campaigns.py. -/
def test_fetch_google_ads_campaigns : TestCase :=
  { steps :=
      [ { req := { method := "GET", path := "/api/v1/google-ads/campaigns",
                   args := [("customer_id", "1234567890")],
                   timeout := 30 },
          failNote := "Exception during valid customer_id request: ",
          judge := campaignsValidCheck },
        { req := { method := "GET", path := "/api/v1/google-ads/campaigns",
                   args := [],
                   timeout := 30 },
          failNote := "Exception during missing customer_id request: ",
          judge := campaignsMissingCheck },
        { req := { method := "GET", path := "/api/v1/google-ads/campaigns",
                   args := [("customer_id", "invalid_id_!@#")],
                   timeout := 30 },
          failNote := "Exception during invalid customer_id request: ",
          judge := campaignsInvalidCheck } ],
    finalCheck := fun _ => true }

/-- TC006_dashboard_metrics_retrieval.py. -/
def test_dashboard_metrics_retrieval : TestCase :=
  { steps :=
      [ { req := { method := "POST", path := "/api/v1/auth/login",
                   args := [("email", "testuser@example.com"), ("password", "testpassword")],
                   timeout := 30 },
          failNote := "Login request failed: ",
          judge := dashboardLoginCheck },
        { req := { method := "GET", path := "/api/v1/metrics/dashboard",
                   args := [("startDate", "2025-01-01"), ("endDate", "2025-01-31")],
                   timeout := 30 },
          failNote := "Request failed for valid dates: ",
          judge := dashboardValidCheck },
        { req := { method := "GET", path := "/api/v1/metrics/dashboard",
                   args := [],
                   timeout := 30 },
          failNote := "Request failed for missing dates: ",
          judge := dashboardMissingDatesCheck },
        { req := { method := "GET", path := "/api/v1/metrics/dashboard",
                   args := [("startDate", "invalid-date"), ("endDate", "2025-01-31")],
                   timeout := 30 },
          failNote := "Request failed for invalid startDate: ",
          judge := dashboardBadDateCheck },
        { req := { method := "GET", path := "/api/v1/metrics/dashboard",
                   args := [("startDate", "2025-01-01"), ("endDate", "31-01-2025")],
                   timeout := 30 },
          failNote := "Request failed for invalid endDate: ",
          judge := dashboardBadDateCheck } ],
    finalCheck := fun _ => true }

/-- TC007_metrics_history_data_grouping.py; `startDate` and `endDate` are
the runtime values computed from `datetime.now()`.  Note the 10-second
timeout, unlike every other request of the corpus. -/
def test_metrics_history_data_grouping (startDate endDate : String) : TestCase :=
  { steps :=
      [ { req := { method := "GET", path := "/api/v1/metrics/history",
                   args := [("startDate", startDate), ("endDate", endDate), ("groupBy", "day")],
                   timeout := 10 },
          failNote := "Request failed unexpectedly: ",
          judge := historyGroupingCheck } ],
    finalCheck := fun _ => true }

/-- TC007_metrics_history_data_retrieval.py. -/
def test_metrics_history_data_retrieval : TestCase :=
  { steps :=
      [ { req := { method := "GET", path := "/api/v1/metrics/history",
                   args := [("groupBy", "day")],
                   timeout := 30 },
          failNote := "Request failed for groupBy=day: ",
          judge := historyValidGroupByCheck },
        { req := { method := "GET", path := "/api/v1/metrics/history",
                   args := [("groupBy", "week")],
                   timeout := 30 },
          failNote := "Request failed for groupBy=week: ",
          judge := historyValidGroupByCheck },
        { req := { method := "GET", path := "/api/v1/metrics/history",
                   args := [("groupBy", "month")],
                   timeout := 30 },
          failNote := "Request failed for groupBy=month: ",
          judge := historyValidGroupByCheck },
        { req := { method := "GET", path := "/api/v1/metrics/history",
                   args := [("groupBy", "year")],
                   timeout := 30 },
          failNote := "Request failed for invalid groupBy=year: ",
          judge := historyInvalidGroupByCheck } ],
    finalCheck := fun _ => true }

/-- TC008_roas_roi_analysis_report_generation.py (only the first request is
wrapped in a try block). -/
def test_roas_roi_analysis_report_generation : TestCase :=
  { steps :=
      [ { req := { method := "GET", path := "/api/v1/roas-roi/analysis",
                   args := [("startDate", "2024-01-01"), ("endDate", "2024-01-31")],
                   timeout := 30 },
          failNote := "Request with valid dates failed: ",
          judge := roasValidCheck },
        { req := { method := "GET", path := "/api/v1/roas-roi/analysis",
                   args := [("endDate", "2024-01-31")],
                   timeout := 30 },
          failNote := "",
          judge := roasDateErrorCheck },
        { req := { method := "GET", path := "/api/v1/roas-roi/analysis",
                   args := [("startDate", "2024-01-01")],
                   timeout := 30 },
          failNote := "",
          judge := roasDateErrorCheck },
        { req := { method := "GET", path := "/api/v1/roas-roi/analysis",
                   args := [("startDate", "invalid-date"), ("endDate", "2024-01-31")],
                   timeout := 30 },
          failNote := "",
          judge := roasDateErrorCheck },
        { req := { method := "GET", path := "/api/v1/roas-roi/analysis",
                   args := [("startDate", "2024-01-01"), ("endDate", "invalid-date")],
                   timeout := 30 },
          failNote := "",
          judge := roasDateErrorCheck } ],
    finalCheck := fun _ => true }

/-- The subscription request descriptor, issued by every request of
TC009_billing_subscription_management.py. -/
def subscriptionReq : ReqDesc :=
  { method := "GET", path := "/api/v1/billing/subscription", args := [], timeout := 30 }

/-- TC009_billing_subscription_management.py: one initial read followed by
five identical timed reads, then an average-latency assertion. -/
def test_billing_subscription_management : TestCase :=
  { steps :=
      [ { req := subscriptionReq,
          failNote := "Request to get subscription failed: ",
          judge := subscriptionDetailCheck },
        { req := subscriptionReq,
          failNote := "Request to get subscription failed: ",
          judge := subscriptionLoopCheck },
        { req := subscriptionReq,
          failNote := "Request to get subscription failed: ",
          judge := subscriptionLoopCheck },
        { req := subscriptionReq,
          failNote := "Request to get subscription failed: ",
          judge := subscriptionLoopCheck },
        { req := subscriptionReq,
          failNote := "Request to get subscription failed: ",
          judge := subscriptionLoopCheck },
        { req := subscriptionReq,
          failNote := "Request to get subscription failed: ",
          judge := subscriptionLoopCheck } ],
    finalCheck := avgLatencyCheck }

/-- TC010_whatsapp_message_sending.py (no try blocks). -/
def test_whatsapp_message_sending : TestCase :=
  { steps :=
      [ { req := { method := "POST", path := "/api/v1/whatsapp/send",
                   args := [("to", "+12345678901"), ("message", "Test message from automated test.")],
                   timeout := 30 },
          failNote := "",
          judge := whatsappValidCheck },
        { req := { method := "POST", path := "/api/v1/whatsapp/send",
                   args := [("message", "Test message without recipient.")],
                   timeout := 30 },
          failNote := "",
          judge := whatsappFieldErrorCheck },
        { req := { method := "POST", path := "/api/v1/whatsapp/send",
                   args := [("to", "+12345678901")],
                   timeout := 30 },
          failNote := "",
          judge := whatsappFieldErrorCheck },
        { req := { method := "POST", path := "/api/v1/whatsapp/send",
                   args := [("to", ""), ("message", "Message with invalid recipient")],
                   timeout := 30 },
          failNote := "",
          judge := whatsappFieldErrorCheck },
        { req := { method := "POST", path := "/api/v1/whatsapp/send",
                   args := [("to", "+12345678901"), ("message", "")],
                   timeout := 30 },
          failNote := "",
          judge := whatsappFieldErrorCheck } ],
    finalCheck := fun _ => true }

/-- The whole corpus, in file order.  `uniqueEmail` is TC002's generated
address; `startDate`, `endDate` are TC007-grouping's computed dates. -/
def corpus (uniqueEmail startDate endDate : String) : List TestCase :=
  [ test_user_login_functionality,
    test_user_registration_process uniqueEmail,
    test_utm_link_creation_and_validation,
    test_google_ads_oauth_flow_initiation,
    test_fetch_google_ads_campaigns,
    test_dashboard_metrics_retrieval,
    test_metrics_history_data_grouping startDate endDate,
    test_metrics_history_data_retrieval,
    test_roas_roi_analysis_report_generation,
    test_billing_subscription_management,
    test_whatsapp_message_sending ]

/-- Every request descriptor occurring in the corpus, in issue order. -/
def corpusRequests (uniqueEmail startDate endDate : String) : List ReqDesc :=
  ((corpus uniqueEmail startDate endDate).map fun tc => tc.steps.map Step.req).flatten

/-- A 400 response whose `message` names the missing `name` field (used to
witness the registration missing-field judgement). -/
def respC1 : Resp :=
  { status := 400,
    body := some (JVal.jobj [("message", JVal.jstr "name is required")]),
    elapsed := 0 }

/-- A 201 response whose link contains every requested utm parameter
verbatim, including the mixed-case `utm_content=contentA`. -/
def respC3good : Resp :=
  { status := 201,
    body := some (JVal.jobj [("utmLink",
      JVal.jstr "https://www.example.com/page?utm_source=newsletter&utm_medium=email&utm_campaign=launch&utm_term=testterm&utm_content=contentA")]),
    elapsed := 0 }

def respC4inv : Resp :=
  { status := 400, body := some (JVal.jobj [("error", JVal.jstr "invalid groupBy")]),
    elapsed := 0 }

def respC4val : Resp :=
  { status := 200, body := some (JVal.jobj []), elapsed := 0 }

def respC5ok : Resp :=
  { status := 200,
    body := some (JVal.jobj [("success", JVal.jbool true), ("data", JVal.jarr [])]),
    elapsed := 0 }

def respC5unauth : Resp :=
  { status := 401,
    body := some (JVal.jobj [("error", JVal.jobj [("code", JVal.jstr "INVALID_TOKEN")])]),
    elapsed := 0 }

def respC6ok : Resp :=
  { status := 200, body := some (JVal.jobj [("campaigns", JVal.jarr [])]), elapsed := 0 }

def respC6miss : Resp :=
  { status := 422,
    body := some (JVal.jobj [("message", JVal.jstr "customer_id is required")]),
    elapsed := 0 }

def respC6inv : Resp :=
  { status := 404, body := some (JVal.jobj [("error", JVal.jstr "customer not found")]),
    elapsed := 0 }

def respC7ok : Resp :=
  { status := 200, body := some (JVal.jobj [("token", JVal.jstr "jwt-abc")]), elapsed := 0 }

def respC7bad : Resp :=
  { status := 401, body := some (JVal.jobj [("error", JVal.jstr "invalid credentials")]),
    elapsed := 0 }

def respC10 : Resp :=
  { status := 422,
    body := some (JVal.jobj [("message", JVal.jstr "email must be a valid email")]),
    elapsed := 0 }

/-- An environment in which every issued request fails at the transport
level with the same exception text. -/
def envBoom : Nat → Outcome := fun _ => Outcome.transport "connection refused"

/-- A healthy billing-subscription response (status 200, `plan` and
`status` fields, zero measured latency). -/
def subOkResp : Resp :=
  { status := 200,
    body := some (JVal.jobj [("plan", JVal.jstr "pro"), ("status", JVal.jstr "active")]),
    elapsed := 0 }

/-- An environment in which every issued request receives `subOkResp`. -/
def envSubOk : Nat → Outcome := fun _ => Outcome.response subOkResp

example : isSubstr "ema" "email is required" = true := by decide
example : isSubstr "organizationName" "organizationname missing" = false := by decide
example : pyStr (JVal.jstr "abc") = "abc" := rfl
example : pyContains "error" (JVal.jarr [JVal.jstr "error"]) = true := by decide
example : pyContains "error" (JVal.jobj [("message", JVal.jnull)]) = false := by decide
example : lowerStr "utm_source=NewsLetter" = "utm_source=newsletter" := by decide
example : (corpusRequests "e@x.com" "2025-09-12" "2025-10-12").length = 45 := by rfl

/-- `Char.toLower` never produces a basic latin capital letter, so a
lowercased string cannot contain one. -/
theorem charToLower_not_upper (c : Char) :
    ¬ (65 ≤ (Char.toLower c).toNat ∧ (Char.toLower c).toNat ≤ 90) := by
  unfold Char.toLower
  by_cases h : c.toNat ≥ 65 ∧ c.toNat ≤ 90
  · rw [if_pos h]
    have hv : (c.toNat + 32).isValidChar := by
      left
      omega
    have heq : (Char.ofNat (c.toNat + 32)).toNat = c.toNat + 32 := by
      unfold Char.ofNat
      rw [dif_pos hv]
      rfl
    omega
  · rw [if_neg h]
    omega

/-- Every character of a substring occurs in the enclosing string. -/
theorem isSubstr_go_subset :
    ∀ (hay n : List Char), isSubstr.go n hay = true → ∀ c ∈ n, c ∈ hay := by
  intro hay
  induction hay with
  | nil =>
    intro n h c hc
    simp [isSubstr.go] at h
    subst h
    simp at hc
  | cons x t ih =>
    intro n h c hc
    simp only [isSubstr.go, Bool.or_eq_true] at h
    rcases h with h | h
    · exact (List.isPrefixOf_iff_prefix.mp h).subset hc
    · exact List.mem_cons_of_mem x (ih n h c hc)

/-- No character of a lowercased string is a basic latin capital letter. -/
theorem lowerStr_no_upper (s : String) (c : Char) (hc : c ∈ (lowerStr s).toList) :
    ¬ (65 ≤ c.toNat ∧ c.toNat ≤ 90) := by
  rw [show (lowerStr s).toList = s.toList.map Char.toLower from rfl] at hc
  obtain ⟨d, _, hd⟩ := List.mem_map.mp hc
  rw [← hd]
  exact charToLower_not_upper d

theorem runSteps_cons_transport (env : Nat → Outcome) (s : Step) (rest : List Step)
    (n : Nat) (acc : List Resp) (e : String) (h : env n = Outcome.transport e) :
    runSteps env (s :: rest) n acc = (n + 1, acc, TestResult.fail (s.failNote ++ e)) := by
  simp [runSteps, h]

theorem runSteps_cons_ok (env : Nat → Outcome) (s : Step) (rest : List Step)
    (n : Nat) (acc : List Resp) (r : Resp) (h : env n = Outcome.response r)
    (hj : s.judge r = true) :
    runSteps env (s :: rest) n acc = runSteps env rest (n + 1) (acc ++ [r]) := by
  simp [runSteps, h, hj]

theorem runSteps_cons_bad (env : Nat → Outcome) (s : Step) (rest : List Step)
    (n : Nat) (acc : List Resp) (r : Resp) (h : env n = Outcome.response r)
    (hj : s.judge r = false) :
    runSteps env (s :: rest) n acc = (n + 1, acc ++ [r], TestResult.fail "assertion failed") := by
  simp [runSteps, h, hj]

/-- A run never issues more requests than the test case has steps. -/
theorem runSteps_count_le (env : Nat → Outcome) :
    ∀ (steps : List Step) (n : Nat) (acc : List Resp),
      (runSteps env steps n acc).1 ≤ n + steps.length := by
  intro steps
  induction steps with
  | nil => intro n acc; simp [runSteps]
  | cons s rest ih =>
    intro n acc
    rcases henv : env n with e | r
    · rw [runSteps_cons_transport env s rest n acc e henv]
      show n + 1 ≤ n + (s :: rest).length
      simp only [List.length_cons]
      omega
    · by_cases hj : s.judge r = true
      · rw [runSteps_cons_ok env s rest n acc r henv hj]
        have := ih (n + 1) (acc ++ [r])
        simp only [List.length_cons]
        omega
      · rw [runSteps_cons_bad env s rest n acc r henv (Bool.eq_false_iff.mpr hj)]
        show n + 1 ≤ n + (s :: rest).length
        simp only [List.length_cons]
        omega

/-- If the first `i` steps of a run receive judged-good responses and the
request of step `i` fails at the transport level, the run stops right there:
the result is the failure carrying that step's note and the exception text,
and exactly `i + 1` requests were issued. -/
theorem runSteps_transport (env : Nat → Outcome) :
    ∀ (i : Nat) (steps : List Step) (n : Nat) (acc : List Resp) (e : String),
      (∀ j, j < i → ∃ r, env (n + j) = Outcome.response r ∧
          (match steps[j]? with
           | some s => s.judge r = true
           | none => False)) →
      env (n + i) = Outcome.transport e →
      i < steps.length →
      ∃ s, steps[i]? = some s ∧
        (runSteps env steps n acc).2.2 = TestResult.fail (s.failNote ++ e) ∧
        (runSteps env steps n acc).1 = n + i + 1 := by
  intro i
  induction i with
  | zero =>
    intro steps n acc e hpre htr hlen
    cases steps with
    | nil => simp at hlen
    | cons s rest =>
      have h0 : env n = Outcome.transport e := by simpa using htr
      rw [runSteps_cons_transport env s rest n acc e h0]
      exact ⟨s, by simp, rfl, rfl⟩
  | succ i ih =>
    intro steps n acc e hpre htr hlen
    cases steps with
    | nil => simp at hlen
    | cons s rest =>
      obtain ⟨r, hr, hj⟩ := hpre 0 (Nat.succ_pos i)
      have hr0 : env n = Outcome.response r := by simpa using hr
      have hj0 : s.judge r = true := by simpa using hj
      have hpre2 : ∀ j, j < i → ∃ r2, env (n + 1 + j) = Outcome.response r2 ∧
          (match rest[j]? with
           | some s2 => s2.judge r2 = true
           | none => False) := by
        intro j hji
        obtain ⟨r2, hr2, hj2⟩ := hpre (j + 1) (Nat.succ_lt_succ hji)
        refine ⟨r2, ?_, ?_⟩
        · have harith : n + 1 + j = n + (j + 1) := by omega
          rw [harith]
          exact hr2
        · simpa using hj2
      have htr2 : env (n + 1 + i) = Outcome.transport e := by
        have harith : n + 1 + i = n + (i + 1) := by omega
        rw [harith]
        exact htr
      have hlen2 : i < rest.length := by
        simpa using Nat.lt_of_succ_lt_succ hlen
      obtain ⟨s2, hs2, hres, hcnt⟩ := ih rest (n + 1) (acc ++ [r]) e hpre2 htr2 hlen2
      rw [runSteps_cons_ok env s rest n acc r hr0 hj0]
      refine ⟨s2, by simpa using hs2, hres, ?_⟩
      rw [hcnt]
      omega

theorem isSubstr_go_append (n : List Char) : ∀ (p : List Char), isSubstr.go n (p ++ n) = true := by
  intro p
  induction p with
  | nil =>
    cases n with
    | nil => rfl
    | cons c t =>
      have hpre : List.isPrefixOf (c :: t) (c :: t) = true :=
        List.isPrefixOf_iff_prefix.mpr (List.prefix_refl _)
      simp [isSubstr.go, hpre]
  | cons c p ih =>
    simp [isSubstr.go, ih]

/-- A string is a substring of anything it is appended to. -/
theorem isSubstr_append_self (e p : String) : isSubstr e (p ++ e) = true := by
  show isSubstr.go e.toList (p ++ e).toList = true
  have hdata : (p ++ e).toList = p.toList ++ e.toList := by
    simp [String.toList]
  rw [hdata]
  exact isSubstr_go_append e.toList p.toList

theorem ite_pass_of (c : Bool)
    (h : (if c = true then TestResult.pass else TestResult.fail "assertion failed")
      = TestResult.pass) : c = true := by
  cases c
  · simp at h
  · rfl

/-- Whatever the missing-field loop of TC002 accepts has status 400 or 422
and an object body whose stringified lowercased `message` contains the
field name. -/
theorem registerMissingCheck_spec (field : String) (r : Resp)
    (hne : isSubstr field "" = false) (h : registerMissingCheck field r = true) :
    (r.status = 400 ∨ r.status = 422) ∧
    ∃ fs m, r.body = some (JVal.jobj fs) ∧ lookupField fs "message" = some m ∧
      isSubstr field (lowerStr (pyStr m)) = true := by
  obtain ⟨st, body, el⟩ := r
  cases body with
  | none => simp [registerMissingCheck] at h
  | some j =>
    cases j <;>
      simp only [registerMissingCheck, Bool.and_eq_true, Bool.or_eq_true, beq_iff_eq] at h <;>
      try exact absurd h.2 Bool.false_ne_true
    case jobj fs =>
      obtain ⟨h1, h2, h3⟩ := h
      refine ⟨h1, fs, ?_⟩
      rcases hl : lookupField fs "message" with _ | m
      · rw [hl] at h3
        have h4 : isSubstr field "" = true := h3
        rw [hne] at h4
        exact absurd h4 Bool.false_ne_true
      · rw [hl] at h3
        exact ⟨m, rfl, rfl, h3⟩

/-- Same as `registerMissingCheck_spec`, for the invalid-email and
short-password blocks of TC002. -/
theorem registerBadValueCheck_spec (field : String) (r : Resp)
    (hne : isSubstr field "" = false) (h : registerBadValueCheck field r = true) :
    (r.status = 400 ∨ r.status = 422) ∧
    ∃ fs m, r.body = some (JVal.jobj fs) ∧ lookupField fs "message" = some m ∧
      isSubstr field (lowerStr (pyStr m)) = true := by
  obtain ⟨st, body, el⟩ := r
  cases body with
  | none => simp [registerBadValueCheck] at h
  | some j =>
    cases j <;>
      simp only [registerBadValueCheck, Bool.and_eq_true, Bool.or_eq_true, beq_iff_eq] at h <;>
      try exact absurd h.2 Bool.false_ne_true
    case jobj fs =>
      obtain ⟨h1, h3⟩ := h
      refine ⟨h1, fs, ?_⟩
      rcases hl : lookupField fs "message" with _ | m
      · rw [hl] at h3
        have h4 : isSubstr field "" = true := h3
        rw [hne] at h4
        exact absurd h4 Bool.false_ne_true
      · rw [hl] at h3
        exact ⟨m, rfl, rfl, h3⟩

theorem runTrace_tc009_envSubOk :
    runTrace test_billing_subscription_management envSubOk
      = (6, [subOkResp, subOkResp, subOkResp, subOkResp, subOkResp, subOkResp],
         TestResult.pass) := rfl

theorem runCase_tc009_envSubOk :
    runCase test_billing_subscription_management envSubOk = TestResult.pass := by
  unfold runCase
  rw [runTrace_tc009_envSubOk]
  have hfc : avgLatencyCheck
      [subOkResp, subOkResp, subOkResp, subOkResp, subOkResp, subOkResp] = true := by
    simp [avgLatencyCheck, subOkResp]
  simp [test_billing_subscription_management, hfc]

/-- Claim C1: for every missing-field registration check (omitting each of
name, email, password, organizationName from an otherwise-valid register
payload), the harness accepts the check only if the response status is 400
or 422 and the response body has a `message` field whose stringified,
lowercased value contains the omitted field name as a substring.  (For
`organizationName` the mixed-case name can never occur in a lowercased
message, so that check is never accepted and the implication is vacuous
there; the other three branches are witnessed below.) -/
theorem claim_C1 : ∀ field ∈ ["name", "email", "password", "organizationName"],
    ∀ r : Resp, registerMissingCheck field r = true →
      (r.status = 400 ∨ r.status = 422) ∧
      ∃ fs m, r.body = some (JVal.jobj fs) ∧ lookupField fs "message" = some m ∧
        isSubstr field (lowerStr (pyStr m)) = true := by
  intro field hf r h
  fin_cases hf <;> exact registerMissingCheck_spec _ r (by decide) h

/-- Witness for C1: the missing-`name` check accepts a concrete response,
and the conclusion holds for it. -/
theorem claim_C1_witness :
    ("name" ∈ ["name", "email", "password", "organizationName"] ∧
      registerMissingCheck "name" respC1 = true) ∧
    (respC1.status = 400 ∨ respC1.status = 422) ∧
    (∃ fs m, respC1.body = some (JVal.jobj fs) ∧ lookupField fs "message" = some m ∧
      isSubstr "name" (lowerStr (pyStr m)) = true) :=
  ⟨⟨by decide, by decide⟩, (claim_C1 "name" (by decide) respC1 (by decide)).1,
    (claim_C1 "name" (by decide) respC1 (by decide)).2⟩

/-- Counterexample to claim C2 ("every HTTP request of every test case
carries a 30-second timeout"): the metrics-history grouping request of
TC007_metrics_history_data_grouping.py carries `timeout=10`. -/
theorem claim_C2_counterexample :
    ¬ (∀ r ∈ corpusRequests "user_abc@example.com" "2025-09-12" "2025-10-12",
        r.timeout = 30) := by
  intro hall
  have hmem : ({ method := "GET", path := "/api/v1/metrics/history",
                 args := [("startDate", "2025-09-12"), ("endDate", "2025-10-12"),
                          ("groupBy", "day")],
                 timeout := 10 } : ReqDesc)
      ∈ corpusRequests "user_abc@example.com" "2025-09-12" "2025-10-12" := by decide
  exact absurd (hall _ hmem) (by decide)

/-- Claim C2, amended: every one of the 45 HTTP requests of the corpus
carries a bounded timeout; it is 30 seconds for all of them except the
single metrics-history grouping request, which carries 10 seconds. -/
theorem claim_C2_amended :
    ∀ uniqueEmail startDate endDate : String,
      ((corpusRequests uniqueEmail startDate endDate).filter
          (fun r => !(r.timeout == 30))).map (fun r => (r.method, r.path, r.timeout))
        = [("GET", "/api/v1/metrics/history", 10)] ∧
      (corpusRequests uniqueEmail startDate endDate).length = 45 := by
  intro uniqueEmail startDate endDate
  exact ⟨rfl, rfl⟩

/-- Witness for C2 (amended), at concrete runtime strings. -/
theorem claim_C2_witness :
    ((corpusRequests "user_abc@example.com" "2025-09-12" "2025-10-12").filter
        (fun r => !(r.timeout == 30))).map (fun r => (r.method, r.path, r.timeout))
      = [("GET", "/api/v1/metrics/history", 10)] ∧
    (corpusRequests "user_abc@example.com" "2025-09-12" "2025-10-12").length = 45 :=
  claim_C2_amended "user_abc@example.com" "2025-09-12" "2025-10-12"

/-- Claim C3 (code bug): the full-utm creation check demands the
mixed-case substring `utm_content=contentA` inside the lowercased link, so
it rejects every response — including `respC3good`, whose link contains
every requested `utm_<field>=<value>` verbatim.  The case-insensitive
containment the spec describes would accept `respC3good`. -/
theorem claim_C3_never_accepts :
    utmFullCheck respC3good = false ∧ ∀ r : Resp, utmFullCheck r = false := by
  have hall : ∀ r : Resp, utmFullCheck r = false := by
    intro r
    cases hv : utmFullCheck r
    · rfl
    · exfalso
      obtain ⟨st, body, el⟩ := r
      cases body with
      | none => simp [utmFullCheck] at hv
      | some j =>
        simp only [utmFullCheck, Bool.and_eq_true, Bool.or_eq_true, beq_iff_eq] at hv
        obtain ⟨h1, h2⟩ := hv
        rcases hl : utmLinkOf j with _ | (_ | b | n | s | xs | fs2) <;>
          rw [hl] at h2 <;> try exact absurd h2 Bool.false_ne_true
        have hca : isSubstr "utm_content=contentA" (lowerStr s) = true := by
          have hx := (List.all_eq_true.mp h2) "utm_content=contentA" (by decide)
          simpa using hx
        have hmem : 'A' ∈ (lowerStr s).toList :=
          isSubstr_go_subset ((lowerStr s).toList) ("utm_content=contentA".toList) hca 'A'
            (by decide)
        exact lowerStr_no_upper s 'A' hmem ⟨by decide, by decide⟩
  exact ⟨hall respC3good, hall⟩

/-- Claim C4: the metrics-history retrieval check accepts the invalid
groupBy ("year") response only with status 400 or 422 and a body containing
`error` or `message` (Python membership: key of an object, element of an
array, substring of a string — field presence for object bodies); a valid
groupBy (day, week, month — all three loop iterations use this judgement)
is accepted only with status exactly 200. -/
theorem claim_C4 :
    (∀ r : Resp, historyInvalidGroupByCheck r = true →
      (r.status = 400 ∨ r.status = 422) ∧ ∃ j, r.body = some j ∧
        (pyContains "error" j = true ∨ pyContains "message" j = true)) ∧
    (∀ r : Resp, historyValidGroupByCheck r = true → r.status = 200) := by
  constructor
  · rintro ⟨st, body, el⟩ h
    cases body with
    | none => simp [historyInvalidGroupByCheck] at h
    | some j =>
      simp only [historyInvalidGroupByCheck, Bool.and_eq_true, Bool.or_eq_true,
        beq_iff_eq] at h
      exact ⟨h.1, j, rfl, h.2⟩
  · rintro ⟨st, body, el⟩ h
    simp only [historyValidGroupByCheck, Bool.and_eq_true, beq_iff_eq] at h
    exact h.1

/-- Witness for C4 at concrete accepted responses. -/
theorem claim_C4_witness :
    (historyInvalidGroupByCheck respC4inv = true ∧
      ((respC4inv.status = 400 ∨ respC4inv.status = 422) ∧ ∃ j, respC4inv.body = some j ∧
        (pyContains "error" j = true ∨ pyContains "message" j = true))) ∧
    (historyValidGroupByCheck respC4val = true ∧ respC4val.status = 200) :=
  ⟨⟨by decide, claim_C4.1 respC4inv (by decide)⟩,
   ⟨by decide, claim_C4.2 respC4val (by decide)⟩⟩

/-- Claim C5: the metrics-history grouping check accepts only statuses 200
and 401 (both reachable, as the trailing conjuncts show); a 200 needs an
object body with a `success` field and a `data` field holding a list; a
401 needs an `error` object whose `code` equals INVALID_TOKEN. -/
theorem claim_C5 :
    (∀ r : Resp, historyGroupingCheck r = true →
      (r.status = 200 ∨ r.status = 401) ∧
      (r.status = 200 → ∃ fs xs, r.body = some (JVal.jobj fs) ∧
         hasKeyF fs "success" = true ∧ lookupField fs "data" = some (JVal.jarr xs)) ∧
      (r.status = 401 → ∃ fs efs, r.body = some (JVal.jobj fs) ∧
         lookupField fs "error" = some (JVal.jobj efs) ∧
         lookupField efs "code" = some (JVal.jstr "INVALID_TOKEN"))) ∧
    historyGroupingCheck respC5ok = true ∧ respC5ok.status = 200 ∧
    historyGroupingCheck respC5unauth = true ∧ respC5unauth.status = 401 := by
  refine ⟨?_, by decide, by decide, by decide, by decide⟩
  rintro ⟨st, body, el⟩ h
  simp only [historyGroupingCheck, Bool.and_eq_true, Bool.or_eq_true, beq_iff_eq] at h
  obtain ⟨h1, h2⟩ := h
  rcases h1 with h200 | h401
  · subst h200
    simp only [reduceIte] at h2
    cases body with
    | none => exact absurd h2 Bool.false_ne_true
    | some j =>
      cases j <;> try exact absurd h2 Bool.false_ne_true
      case jobj fs =>
        simp only [Bool.and_eq_true] at h2
        obtain ⟨⟨hsk, hdk⟩, hdata⟩ := h2
        refine ⟨Or.inl rfl, fun _ => ?_,
          fun hq => absurd (show (200 : Nat) = 401 from hq) (by decide)⟩
        rcases hl : lookupField fs "data" with _ | (_ | b | n | s | xs | fs2) <;>
          rw [hl] at hdata <;> try exact absurd hdata Bool.false_ne_true
        exact ⟨fs, xs, rfl, hsk, hl⟩
  · subst h401
    rw [if_neg (show ¬ ((401 : Nat) = 200) from by decide)] at h2
    simp only [reduceIte] at h2
    cases body with
    | none => exact absurd h2 Bool.false_ne_true
    | some j =>
      cases j with
      | jnull => simp [getKey] at h2
      | jbool b => simp [getKey] at h2
      | jnum n => simp [getKey] at h2
      | jstr s => simp [getKey] at h2
      | jarr xs => simp [getKey] at h2
      | jobj fs =>
        simp only [getKey, Bool.and_eq_true] at h2
        obtain ⟨hpc, herr⟩ := h2
        refine ⟨Or.inr rfl,
          fun hq => absurd (show (401 : Nat) = 200 from hq) (by decide), fun _ => ?_⟩
        rcases hl : lookupField fs "error" with _ | (_ | b | n | s | xs | efs) <;>
          rw [hl] at herr <;> simp only [getKey] at herr <;>
          try exact absurd herr Bool.false_ne_true
        rcases hl2 : lookupField efs "code" with _ | (_ | b2 | n2 | s2 | xs2 | fs3) <;>
          rw [hl2] at herr <;> try exact absurd herr Bool.false_ne_true
        have hs2 : s2 = "INVALID_TOKEN" := eq_of_beq herr
        subst hs2
        exact ⟨fs, efs, rfl, hl, hl2⟩

/-- Witness for C5 at a concrete accepted 200 response. -/
theorem claim_C5_witness :
    historyGroupingCheck respC5ok = true ∧
    ((respC5ok.status = 200 ∨ respC5ok.status = 401) ∧
     (respC5ok.status = 200 → ∃ fs xs, respC5ok.body = some (JVal.jobj fs) ∧
        hasKeyF fs "success" = true ∧ lookupField fs "data" = some (JVal.jarr xs)) ∧
     (respC5ok.status = 401 → ∃ fs efs, respC5ok.body = some (JVal.jobj fs) ∧
        lookupField fs "error" = some (JVal.jobj efs) ∧
        lookupField efs "code" = some (JVal.jstr "INVALID_TOKEN"))) :=
  ⟨by decide, claim_C5.1 respC5ok (by decide)⟩

/-- Claim C6: the google-ads campaigns check accepts the valid customer_id
response only with status 200 and an object body whose `campaigns` value is
a list; the missing-customer_id response only with status in
(400, 422) ⊆ (400, 404, 422) and `error` or `message` contained in the
body; the invalid-customer_id response only with status in
(400, 404) ⊆ (400, 404, 422) likewise. -/
theorem claim_C6 :
    (∀ r : Resp, campaignsValidCheck r = true →
      r.status = 200 ∧ ∃ fs xs, r.body = some (JVal.jobj fs) ∧
        lookupField fs "campaigns" = some (JVal.jarr xs)) ∧
    (∀ r : Resp, campaignsMissingCheck r = true →
      (r.status = 400 ∨ r.status = 404 ∨ r.status = 422) ∧ ∃ j, r.body = some j ∧
        (pyContains "error" j = true ∨ pyContains "message" j = true)) ∧
    (∀ r : Resp, campaignsInvalidCheck r = true →
      (r.status = 400 ∨ r.status = 404 ∨ r.status = 422) ∧ ∃ j, r.body = some j ∧
        (pyContains "error" j = true ∨ pyContains "message" j = true)) := by
  refine ⟨?_, ?_, ?_⟩
  · rintro ⟨st, body, el⟩ h
    cases body with
    | none => simp [campaignsValidCheck] at h
    | some j =>
      cases j <;> simp only [campaignsValidCheck, Bool.and_eq_true, beq_iff_eq] at h <;>
        try exact absurd h.2 Bool.false_ne_true
      case jobj fs =>
        obtain ⟨h1, _, h3⟩ := h
        refine ⟨h1, fs, ?_⟩
        rcases hl : lookupField fs "campaigns" with _ | (_ | b | n | s | xs | fs2) <;>
          rw [hl] at h3 <;> try exact absurd h3 Bool.false_ne_true
        exact ⟨xs, rfl, rfl⟩
  · rintro ⟨st, body, el⟩ h
    cases body with
    | none => simp [campaignsMissingCheck] at h
    | some j =>
      simp only [campaignsMissingCheck, Bool.and_eq_true, Bool.or_eq_true, beq_iff_eq] at h
      exact ⟨Or.elim h.1 Or.inl (fun hx => Or.inr (Or.inr hx)), j, rfl, h.2⟩
  · rintro ⟨st, body, el⟩ h
    cases body with
    | none => simp [campaignsInvalidCheck] at h
    | some j =>
      simp only [campaignsInvalidCheck, Bool.and_eq_true, Bool.or_eq_true, beq_iff_eq] at h
      exact ⟨Or.elim h.1 Or.inl (fun hx => Or.inr (Or.inl hx)), j, rfl, h.2⟩

/-- Witness for C6 at concrete accepted responses of all three scenarios. -/
theorem claim_C6_witness :
    (campaignsValidCheck respC6ok = true ∧
      (respC6ok.status = 200 ∧ ∃ fs xs, respC6ok.body = some (JVal.jobj fs) ∧
        lookupField fs "campaigns" = some (JVal.jarr xs))) ∧
    (campaignsMissingCheck respC6miss = true ∧
      ((respC6miss.status = 400 ∨ respC6miss.status = 404 ∨ respC6miss.status = 422) ∧
        ∃ j, respC6miss.body = some j ∧
          (pyContains "error" j = true ∨ pyContains "message" j = true))) ∧
    (campaignsInvalidCheck respC6inv = true ∧
      ((respC6inv.status = 400 ∨ respC6inv.status = 404 ∨ respC6inv.status = 422) ∧
        ∃ j, respC6inv.body = some j ∧
          (pyContains "error" j = true ∨ pyContains "message" j = true))) :=
  ⟨⟨by decide, claim_C6.1 respC6ok (by decide)⟩,
   ⟨by decide, claim_C6.2.1 respC6miss (by decide)⟩,
   ⟨by decide, claim_C6.2.2 respC6inv (by decide)⟩⟩

/-- Claim C7: the login check accepts the valid-credentials response only
with status 200 and `token` or `accessToken` contained in the body (key
membership for object bodies); the invalid-credentials response only with
status 400 or 401 and `error` or `message` contained in the body. -/
theorem claim_C7 :
    (∀ r : Resp, loginValidCheck r = true →
      r.status = 200 ∧ ∃ j, r.body = some j ∧
        (pyContains "token" j = true ∨ pyContains "accessToken" j = true)) ∧
    (∀ r : Resp, loginInvalidCheck r = true →
      (r.status = 400 ∨ r.status = 401) ∧ ∃ j, r.body = some j ∧
        (pyContains "error" j = true ∨ pyContains "message" j = true)) := by
  constructor
  · rintro ⟨st, body, el⟩ h
    cases body with
    | none => simp [loginValidCheck] at h
    | some j =>
      simp only [loginValidCheck, Bool.and_eq_true, Bool.or_eq_true, beq_iff_eq] at h
      exact ⟨h.1, j, rfl, h.2⟩
  · rintro ⟨st, body, el⟩ h
    cases body with
    | none => simp [loginInvalidCheck] at h
    | some j =>
      simp only [loginInvalidCheck, Bool.and_eq_true, Bool.or_eq_true, beq_iff_eq] at h
      exact ⟨h.1, j, rfl, h.2⟩

/-- Witness for C7 at concrete accepted responses. -/
theorem claim_C7_witness :
    (loginValidCheck respC7ok = true ∧
      (respC7ok.status = 200 ∧ ∃ j, respC7ok.body = some j ∧
        (pyContains "token" j = true ∨ pyContains "accessToken" j = true))) ∧
    (loginInvalidCheck respC7bad = true ∧
      ((respC7bad.status = 400 ∨ respC7bad.status = 401) ∧ ∃ j, respC7bad.body = some j ∧
        (pyContains "error" j = true ∨ pyContains "message" j = true))) :=
  ⟨⟨by decide, claim_C7.1 respC7ok (by decide)⟩,
   ⟨by decide, claim_C7.2 respC7bad (by decide)⟩⟩

/-- Claim C8, amended: a run of any test case of the corpus never issues
more requests than it has steps, and a transport failure (connection error
or timeout) on any request immediately fails the check with that step's
message carrying the underlying error text, with no further request issued
— in particular no retry.  (The original claim's stronger reading, that
each request descriptor is issued at most once per check, fails for the
billing test, which deliberately repeats an identical GET six times; see
the counterexample.) -/
theorem claim_C8_amended :
    ∀ (tc : TestCase) (env : Nat → Outcome),
      issuedCount tc env ≤ tc.steps.length ∧
      ∀ (i : Nat) (e : String),
        (∀ j, j < i → ∃ r, env j = Outcome.response r ∧
            (match tc.steps[j]? with
             | some s => s.judge r = true
             | none => False)) →
        env i = Outcome.transport e →
        i < tc.steps.length →
        issuedCount tc env = i + 1 ∧
        ∃ s, tc.steps[i]? = some s ∧
          runCase tc env = TestResult.fail (s.failNote ++ e) ∧
          isSubstr e (s.failNote ++ e) = true := by
  intro tc env
  constructor
  · have hle := runSteps_count_le env tc.steps 0 []
    simpa [issuedCount, runTrace] using hle
  · intro i e hpre htr hlen
    have hpre0 : ∀ j, j < i → ∃ r, env (0 + j) = Outcome.response r ∧
        (match tc.steps[j]? with
         | some s => s.judge r = true
         | none => False) := by
      intro j hj
      simpa using hpre j hj
    have htr0 : env (0 + i) = Outcome.transport e := by simpa using htr
    obtain ⟨s, hs, hres, hcnt⟩ := runSteps_transport env i tc.steps 0 [] e hpre0 htr0 hlen
    refine ⟨by simpa [issuedCount, runTrace] using hcnt, s, hs, ?_,
      isSubstr_append_self e s.failNote⟩
    unfold runCase
    rcases hrt : runTrace tc env with ⟨m, rs, res⟩
    rw [show runTrace tc env = runSteps env tc.steps 0 [] from rfl] at hrt
    rw [hrt] at hres
    simp only at hres
    subst hres
    rfl

/-- Witness for C8 (amended): a transport failure on the very first login
request fails TC001 immediately with the error text, after exactly one
issued request. -/
theorem claim_C8_witness :
    issuedCount test_user_login_functionality envBoom = 0 + 1 ∧
    ∃ s, test_user_login_functionality.steps[0]? = some s ∧
      runCase test_user_login_functionality envBoom
        = TestResult.fail (s.failNote ++ "connection refused") ∧
      isSubstr "connection refused" (s.failNote ++ "connection refused") = true :=
  (claim_C8_amended test_user_login_functionality envBoom).2 0 "connection refused"
    (fun j hj => absurd hj (Nat.not_lt_zero j)) rfl (by decide)

/-- Counterexample to claim C8 as stated ("each HTTP request of a check is
issued at most once regardless of outcome"): in a fully successful run the
billing test issues the identical subscription GET six times. -/
theorem claim_C8_counterexample :
    runCase test_billing_subscription_management envSubOk = TestResult.pass ∧
    List.count subscriptionReq (issuedReqs test_billing_subscription_management envSubOk) = 6 ∧
    ¬ (List.count subscriptionReq (issuedReqs test_billing_subscription_management envSubOk) ≤ 1) :=
  ⟨runCase_tc009_envSubOk, by decide, by decide⟩

/-- Claim C9: the billing check (one initial read plus the five-fold
repetition of the subscription GET) passes only if each of the five loop
responses has status exactly 200 and the average of their measured
latencies is under 2 seconds. -/
theorem claim_C9 :
    ∀ (env : Nat → Outcome) (r0 r1 r2 r3 r4 r5 : Resp),
      env 0 = Outcome.response r0 → env 1 = Outcome.response r1 →
      env 2 = Outcome.response r2 → env 3 = Outcome.response r3 →
      env 4 = Outcome.response r4 → env 5 = Outcome.response r5 →
      runCase test_billing_subscription_management env = TestResult.pass →
      (r1.status = 200 ∧ r2.status = 200 ∧ r3.status = 200 ∧
       r4.status = 200 ∧ r5.status = 200) ∧
      (r1.elapsed + r2.elapsed + r3.elapsed + r4.elapsed + r5.elapsed) / 5 < 2 := by
  intro env r0 r1 r2 r3 r4 r5 h0 h1 h2 h3 h4 h5 hp
  simp only [runCase, runTrace, test_billing_subscription_management] at hp
  by_cases hj0 : subscriptionDetailCheck r0 = true
  case neg =>
    rw [runSteps_cons_bad env _ _ _ _ r0 h0 (Bool.eq_false_iff.mpr hj0)] at hp
    simp at hp
  rw [runSteps_cons_ok env _ _ _ _ r0 h0 hj0] at hp
  by_cases hj1 : subscriptionLoopCheck r1 = true
  case neg =>
    rw [runSteps_cons_bad env _ _ _ _ r1 h1 (Bool.eq_false_iff.mpr hj1)] at hp
    simp at hp
  rw [runSteps_cons_ok env _ _ _ _ r1 h1 hj1] at hp
  by_cases hj2 : subscriptionLoopCheck r2 = true
  case neg =>
    rw [runSteps_cons_bad env _ _ _ _ r2 h2 (Bool.eq_false_iff.mpr hj2)] at hp
    simp at hp
  rw [runSteps_cons_ok env _ _ _ _ r2 h2 hj2] at hp
  by_cases hj3 : subscriptionLoopCheck r3 = true
  case neg =>
    rw [runSteps_cons_bad env _ _ _ _ r3 h3 (Bool.eq_false_iff.mpr hj3)] at hp
    simp at hp
  rw [runSteps_cons_ok env _ _ _ _ r3 h3 hj3] at hp
  by_cases hj4 : subscriptionLoopCheck r4 = true
  case neg =>
    rw [runSteps_cons_bad env _ _ _ _ r4 h4 (Bool.eq_false_iff.mpr hj4)] at hp
    simp at hp
  rw [runSteps_cons_ok env _ _ _ _ r4 h4 hj4] at hp
  by_cases hj5 : subscriptionLoopCheck r5 = true
  case neg =>
    rw [runSteps_cons_bad env _ _ _ _ r5 h5 (Bool.eq_false_iff.mpr hj5)] at hp
    simp at hp
  rw [runSteps_cons_ok env _ _ _ _ r5 h5 hj5] at hp
  simp only [runSteps, List.nil_append, List.cons_append, List.singleton_append] at hp
  have hfc : avgLatencyCheck [r0, r1, r2, r3, r4, r5] = true := ite_pass_of _ hp
  refine ⟨⟨?_, ?_, ?_, ?_, ?_⟩, ?_⟩
  · simpa [subscriptionLoopCheck] using hj1
  · simpa [subscriptionLoopCheck] using hj2
  · simpa [subscriptionLoopCheck] using hj3
  · simpa [subscriptionLoopCheck] using hj4
  · simpa [subscriptionLoopCheck] using hj5
  · simp [avgLatencyCheck] at hfc
    linarith

/-- Witness for C9: a fully healthy run (all six responses are
`subOkResp`) passes, and the conclusion holds for it. -/
theorem claim_C9_witness :
    (envSubOk 0 = Outcome.response subOkResp ∧
     runCase test_billing_subscription_management envSubOk = TestResult.pass) ∧
    ((subOkResp.status = 200 ∧ subOkResp.status = 200 ∧ subOkResp.status = 200 ∧
      subOkResp.status = 200 ∧ subOkResp.status = 200) ∧
     (subOkResp.elapsed + subOkResp.elapsed + subOkResp.elapsed + subOkResp.elapsed +
       subOkResp.elapsed) / 5 < 2) :=
  ⟨⟨rfl, runCase_tc009_envSubOk⟩,
   claim_C9 envSubOk subOkResp subOkResp subOkResp subOkResp subOkResp subOkResp
     rfl rfl rfl rfl rfl rfl runCase_tc009_envSubOk⟩

/-- Claim C10: the registration check also accepts the malformed-email
payload response only with status 400 or 422 and a `message` field whose
stringified lowercased value contains "email", and the too-short-password
payload response likewise with "password". -/
theorem claim_C10 :
    (∀ r : Resp, registerBadValueCheck "email" r = true →
      (r.status = 400 ∨ r.status = 422) ∧
      ∃ fs m, r.body = some (JVal.jobj fs) ∧ lookupField fs "message" = some m ∧
        isSubstr "email" (lowerStr (pyStr m)) = true) ∧
    (∀ r : Resp, registerBadValueCheck "password" r = true →
      (r.status = 400 ∨ r.status = 422) ∧
      ∃ fs m, r.body = some (JVal.jobj fs) ∧ lookupField fs "message" = some m ∧
        isSubstr "password" (lowerStr (pyStr m)) = true) :=
  ⟨fun r h => registerBadValueCheck_spec "email" r (by decide) h,
   fun r h => registerBadValueCheck_spec "password" r (by decide) h⟩

/-- Witness for C10 at a concrete accepted invalid-email response. -/
theorem claim_C10_witness :
    registerBadValueCheck "email" respC10 = true ∧
    ((respC10.status = 400 ∨ respC10.status = 422) ∧
      ∃ fs m, respC10.body = some (JVal.jobj fs) ∧ lookupField fs "message" = some m ∧
        isSubstr "email" (lowerStr (pyStr m)) = true) :=
  ⟨by decide, claim_C10.1 respC10 (by decide)⟩
